import Mathlib

/-!
Verification development for the Playwright API test-automation harness
(HTTP client wrapper, issue service, data factory, schema-validator adapter,
and the fixture with createIssue interception and teardown cleanup).

The TypeScript sources are shallowly embedded: JSON values are an inductive
type, the HTTP transport is an oracle returning either a fault or a response,
and every effectful operation returns the list of observable events it emits
(transport invocations, log lines, console lines) alongside its result.
-/

set_option maxRecDepth 4000

/-- JSON values as produced by response.json() and used for request payloads.
Numbers are modelled as integers: every number handled by this repository
(issue number, id, comment count, status) is integral. undef models the
JavaScript undefined value, which is distinct from JSON null. -/
inductive Json where
  | null : Json
  | undef : Json
  | bool : Bool → Json
  | num : Int → Json
  | str : String → Json
  | arr : List Json → Json
  | obj : List (String × Json) → Json

/-- JavaScript property access body[k]. On null or undefined it throws a
TypeError; on objects it returns the field value or undefined when the key
is absent; on other primitives it returns undefined (prototype properties
are not modelled, none is read by the harness). -/
def Json.get (j : Json) (k : String) : Except String Json :=
  match j with
  | Json.null => Except.error ("TypeError: Cannot read properties of null (reading " ++ k ++ ")")
  | Json.undef => Except.error ("TypeError: Cannot read properties of undefined (reading " ++ k ++ ")")
  | Json.obj fs =>
      match fs.find? (fun p => p.1 = k) with
      | some p => Except.ok p.2
      | none => Except.ok Json.undef
  | _ => Except.ok Json.undef

/-- JavaScript truthiness, used by the `if (data)` guard in logRequest. -/
def jsTruthy : Json → Bool
  | Json.null => false
  | Json.undef => false
  | Json.bool b => b
  | Json.num i => decide (i ≠ 0)
  | Json.str s => !(s.isEmpty)
  | Json.arr _ => true
  | Json.obj _ => true

mutual

/-- JSON.stringify (indentation not modelled; the harness only inspects the
serialized text for the field names it mentions). -/
def Json.render : Json → String
  | Json.null => "null"
  | Json.undef => "null"
  | Json.bool b => cond b "true" "false"
  | Json.num i => toString i
  | Json.str s => "\"" ++ s ++ "\""
  | Json.arr xs => "[" ++ renderElems xs ++ "]"
  | Json.obj fs => "\x7b" ++ renderFields fs ++ "\x7d"
termination_by structural j => j

def renderElems : List Json → String
  | [] => ""
  | [j] => Json.render j
  | j :: rest => Json.render j ++ "," ++ renderElems rest
termination_by structural l => l

def renderFields : List (String × Json) → String
  | [] => ""
  | [(k, v)] => "\"" ++ k ++ "\":" ++ Json.render v
  | (k, v) :: rest => "\"" ++ k ++ "\":" ++ Json.render v ++ "," ++ renderFields rest
termination_by structural l => l

end

mutual

/-- JavaScript template-literal conversion String(x), used by the endpoint
builders when a tracked value is interpolated into a path. -/
def jsToString : Json → String
  | Json.null => "null"
  | Json.undef => "undefined"
  | Json.bool b => cond b "true" "false"
  | Json.num i => toString i
  | Json.str s => s
  | Json.arr xs => jsArrayToString xs
  | Json.obj _ => "[object Object]"

def jsArrayToString : List Json → String
  | [] => ""
  | [j] => jsElemToString j
  | j :: rest => jsElemToString j ++ "," ++ jsArrayToString rest
termination_by structural l => l

/-- Inside Array.prototype.toString, null and undefined render as empty;
the other cases convert exactly as at top level. -/
def jsElemToString : Json → String
  | Json.null => ""
  | Json.undef => ""
  | Json.bool b => cond b "true" "false"
  | Json.num i => toString i
  | Json.str s => s
  | Json.arr xs => jsArrayToString xs
  | Json.obj _ => "[object Object]"
termination_by structural j => j

end

/-- The Playwright APIResponse as observed by the harness: status code,
status text, headers, the lazily decoded JSON body (json() may fault on a
non-JSON body, modelled as the error case) and the raw body text. -/
structure Response where
  status : Nat
  statusText : String
  headers : List (String × String)
  jsonBody : Except String Json
  textBody : String

/-- APIResponse.ok(): status in the range 200..299. -/
def Response.ok (r : Response) : Bool :=
  decide (200 ≤ r.status ∧ r.status ≤ 299)

theorem Response.ok_iff (r : Response) :
    r.ok = true ↔ (200 ≤ r.status ∧ r.status < 300) := by
  simp only [Response.ok, decide_eq_true_eq]
  omega

/-- Winston log severities used by the ApiClient logger. -/
inductive LogLevel where
  | info | warn | error | debug

/-- Observable events: an invocation of the transport capability, a logger
line at some severity, and a console.log line (used by the teardown loop). -/
inductive Event where
  | transportCall : String → String → Option Json → Event
  | log : LogLevel → String → Event
  | console : String → Event

/-- Faults that can propagate out of the harness: a transport-level failure
(network error), a json() decode failure, and a JavaScript TypeError raised
by a property access on null or undefined. -/
inductive Fault where
  | transport : String → Fault
  | jsonDecode : String → Fault
  | typeError : String → Fault

/-- The transport capability (Playwright APIRequestContext) as an oracle:
given method, path and optional payload it either faults or yields a
response. The base URL and auth header are fixed at construction and fold
into the oracle. -/
structure Transport where
  respond : String → String → Option Json → Except String Response

def requestLine (method path : String) : String :=
  "[" ++ method ++ "] " ++ path

def statusLine (r : Response) : String :=
  "Status: " ++ toString r.status ++ " " ++ r.statusText

def payloadLine (j : Json) : String :=
  "Payload: " ++ Json.render j

/-- ApiClient.logRequest: logs the request line at info, the payload at
debug when truthy, the status line at info, and the body text at error
when the response status is not a success. It runs after the transport
call has already resolved. -/
def logRequest (method path : String) (data : Option Json) (r : Response) : List Event :=
  [Event.log LogLevel.info (requestLine method path)]
    ++ (match data with
        | some j => if jsTruthy j then [Event.log LogLevel.debug (payloadLine j)] else []
        | none => [])
    ++ [Event.log LogLevel.info (statusLine r)]
    ++ (if r.ok then [] else [Event.log LogLevel.error ("Error Body: " ++ r.textBody)])

/-- ApiClient.sendGetRequest. -/
def sendGetRequest (t : Transport) (path : String) (params : Option Json) :
    List Event × Except Fault Response :=
  match t.respond "GET" path params with
  | Except.error m => ([Event.transportCall "GET" path params], Except.error (Fault.transport m))
  | Except.ok r =>
      (Event.transportCall "GET" path params :: logRequest "GET" path params r, Except.ok r)

/-- ApiClient.sendPostRequest. -/
def sendPostRequest (t : Transport) (path : String) (data : Json) :
    List Event × Except Fault Response :=
  match t.respond "POST" path (some data) with
  | Except.error m => ([Event.transportCall "POST" path (some data)], Except.error (Fault.transport m))
  | Except.ok r =>
      (Event.transportCall "POST" path (some data) :: logRequest "POST" path (some data) r, Except.ok r)

/-- ApiClient.sendPutRequest. -/
def sendPutRequest (t : Transport) (path : String) (data : Json) :
    List Event × Except Fault Response :=
  match t.respond "PUT" path (some data) with
  | Except.error m => ([Event.transportCall "PUT" path (some data)], Except.error (Fault.transport m))
  | Except.ok r =>
      (Event.transportCall "PUT" path (some data) :: logRequest "PUT" path (some data) r, Except.ok r)

/-- ApiClient.sendPatchRequest. -/
def sendPatchRequest (t : Transport) (path : String) (data : Json) :
    List Event × Except Fault Response :=
  match t.respond "PATCH" path (some data) with
  | Except.error m => ([Event.transportCall "PATCH" path (some data)], Except.error (Fault.transport m))
  | Except.ok r =>
      (Event.transportCall "PATCH" path (some data) :: logRequest "PATCH" path (some data) r, Except.ok r)

/-- ApiClient.sendDeleteRequest: no payload, logRequest receives undefined. -/
def sendDeleteRequest (t : Transport) (path : String) :
    List Event × Except Fault Response :=
  match t.respond "DELETE" path none with
  | Except.error m => ([Event.transportCall "DELETE" path none], Except.error (Fault.transport m))
  | Except.ok r =>
      (Event.transportCall "DELETE" path none :: logRequest "DELETE" path none r, Except.ok r)

/-- IssueService.buildIssuesEndpoint: the collection endpoint. -/
def buildIssuesEndpoint (owner repo : String) : String :=
  "/repos/" ++ owner ++ "/" ++ repo ++ "/issues"

/-- IssueService.buildIssueEndpoint: the item endpoint. The TypeScript
signature declares issueNumber as number, but the teardown loop passes the
raw body.number value, so the runtime argument is an arbitrary JSON value
interpolated via template-literal conversion. -/
def buildIssueEndpoint (owner repo : String) (issueNumber : Json) : String :=
  buildIssuesEndpoint owner repo ++ "/" ++ jsToString issueNumber

/-- IssueService.createIssue: POST to the collection endpoint. -/
def createIssue (t : Transport) (owner repo : String) (payload : Json) :
    List Event × Except Fault Response :=
  sendPostRequest t (buildIssuesEndpoint owner repo) payload

/-- IssueService.getIssues: GET the collection. -/
def getIssues (t : Transport) (owner repo : String) :
    List Event × Except Fault Response :=
  sendGetRequest t (buildIssuesEndpoint owner repo) none

/-- IssueService.getIssueByNumber: GET the item. -/
def getIssueByNumber (t : Transport) (owner repo : String) (issueNumber : Json) :
    List Event × Except Fault Response :=
  sendGetRequest t (buildIssueEndpoint owner repo issueNumber) none

/-- IssueService.updateIssue: PATCH the item. -/
def updateIssue (t : Transport) (owner repo : String) (issueNumber : Json) (payload : Json) :
    List Event × Except Fault Response :=
  sendPatchRequest t (buildIssueEndpoint owner repo issueNumber) payload

/-- The literal payload posted by closeIssue. -/
def closePayload : Json := Json.obj [("state", Json.str "closed")]

/-- The literal payload posted by reopenIssue. -/
def openPayload : Json := Json.obj [("state", Json.str "open")]

/-- IssueService.closeIssue: POST the item endpoint with state closed. -/
def closeIssue (t : Transport) (owner repo : String) (issueNumber : Json) :
    List Event × Except Fault Response :=
  sendPostRequest t (buildIssueEndpoint owner repo issueNumber) closePayload

/-- IssueService.reopenIssue: POST the item endpoint with state open. -/
def reopenIssue (t : Transport) (owner repo : String) (issueNumber : Json) :
    List Event × Except Fault Response :=
  sendPostRequest t (buildIssueEndpoint owner repo issueNumber) openPayload

/-- A Tracked Resource Record pushed onto createdIssueNumbers by the fixture
wrapper. The number field holds the raw body.number value. -/
structure TrackedRecord where
  owner : String
  repo : String
  number : Json

/-- The createIssue wrapper installed by the issueService fixture: it calls
the original createIssue, and when the response reports success it decodes
the body with json() and pushes the owner, repo and body.number onto the
test-scoped list. It returns the original response unchanged; a json()
decode failure or a TypeError while reading body.number propagates as a
fault, leaving the list unchanged. The second component is the state of
createdIssueNumbers after the call. -/
def wrappedCreateIssue (t : Transport) (owner repo : String) (payload : Json)
    (tracked : List TrackedRecord) :
    List Event × List TrackedRecord × Except Fault Response :=
  let step := createIssue t owner repo payload
  match step.2 with
  | Except.error f => (step.1, tracked, Except.error f)
  | Except.ok r =>
      if r.ok then
        match r.jsonBody with
        | Except.error e => (step.1, tracked, Except.error (Fault.jsonDecode e))
        | Except.ok body =>
            match Json.get body "number" with
            | Except.error e => (step.1, tracked, Except.error (Fault.typeError e))
            | Except.ok n => (step.1, tracked ++ [⟨owner, repo, n⟩], Except.ok r)
      else (step.1, tracked, Except.ok r)

/-- The tracking bookkeeping of the fixture wrapper, expressed as a function
of the underlying call result: the record pushed (if any) is computed from
the response the original createIssue produced, so the underlying call
happens before any bookkeeping. -/
def trackAfter (res : Except Fault Response) (owner repo : String)
    (tracked : List TrackedRecord) : List TrackedRecord :=
  match res with
  | Except.ok r =>
      if r.ok then
        match r.jsonBody with
        | Except.ok body =>
            match Json.get body "number" with
            | Except.ok n => tracked ++ [⟨owner, repo, n⟩]
            | Except.error _ => tracked
        | Except.error _ => tracked
      else tracked
  | Except.error _ => tracked

/-- The teardown loop of the issueService fixture: iterate the (in-place)
reversed createdIssueNumbers, log a console line and close each issue. A
faulting close propagates (there is no catch in the loop); a close that
merely returns a failure status is ignored and the loop continues. -/
def teardownLoop (t : Transport) : List TrackedRecord → List Event × Option Fault
  | [] => ([], none)
  | rec :: rest =>
      let consoleEv := Event.console
        ("[Auto-Cleanup] Closing Issue #" ++ jsToString rec.number ++ "...")
      let step := closeIssue t rec.owner rec.repo rec.number
      match step.2 with
      | Except.error f => (consoleEv :: step.1, some f)
      | Except.ok _ =>
          let next := teardownLoop t rest
          (consoleEv :: step.1 ++ next.1, next.2)

/-- The full teardown phase: createdIssueNumbers.reverse() mutates the array
in place and the loop then walks it front to back. The array is never
cleared, so its final state is the reversed list (also when a close call
faults mid-loop). Components: events emitted, final state of the array,
and the fault (if any) that aborted the loop. -/
def teardown (t : Transport) (tracked : List TrackedRecord) :
    List Event × List TrackedRecord × Option Fault :=
  let rev := tracked.reverse
  let run := teardownLoop t rev
  (run.1, rev, run.2)

/-- Recognizes the transport invocation a closeIssue call performs: a POST
whose payload is the literal state-closed object; yields the request path. -/
def closeCallOf (e : Event) : Option String :=
  match e with
  | Event.transportCall m p d =>
      if m = "POST" then
        match d with
        | some (Json.obj [("state", Json.str "closed")]) => some p
        | _ => none
      else none
  | _ => none

/-- The close-call paths in an event trace, in emission order. -/
def closeCalls (ev : List Event) : List String :=
  ev.filterMap closeCallOf

/-- The item endpoint a tracked record is closed at. -/
def trackedEndpoint (rec : TrackedRecord) : String :=
  buildIssueEndpoint rec.owner rec.repo rec.number

/-- The IssuePayload interface of issue-service.ts: title required, the other
fields optional. -/
structure IssuePayload where
  title : String
  body : Option String
  assignees : Option (List String)
  milestone : Option Int
  labels : Option (List String)

/-- IssueFactory.createIssueInfo: the random sentence, random paragraphs and
current date string are inputs from the random-source and clock
collaborators; the factory concatenates the date onto the title and fixes
the label list. -/
def createIssueInfo (sentence paragraphs dateString : String) : IssuePayload :=
  { title := sentence ++ " " ++ dateString
    body := some paragraphs
    assignees := none
    milestone := none
    labels := some ["bug", "improvement"] }

/-- A single zod validation issue: the path of the violated field and the
reason. Modelled from the spec: the validation capability returns a
structured error value and never raises. -/
structure ZodIssue where
  path : List String
  message : String

/-- Field lookup on an object tree node (plain association lookup, used by
the treeify algorithm). -/
def objLookup : Json → String → Option Json
  | Json.obj fs, k => (fs.find? (fun p => p.1 = k)).map Prod.snd
  | _, _ => none

def setField : List (String × Json) → String → Json → List (String × Json)
  | [], k, v => [(k, v)]
  | (k0, v0) :: rest, k, v =>
      if k0 = k then (k, v) :: rest else (k0, v0) :: setField rest k v

def objSet : Json → String → Json → Json
  | Json.obj fs, k, v => Json.obj (setField fs k v)
  | j, _, _ => j

/-- An empty node of the treeified error: no errors, no properties yet. -/
def emptyNode : Json := Json.obj [("errors", Json.arr [])]

def addErr (tree : Json) (msg : String) : Json :=
  match objLookup tree "errors" with
  | some (Json.arr es) => objSet tree "errors" (Json.arr (es ++ [Json.str msg]))
  | _ => objSet tree "errors" (Json.arr [Json.str msg])

/-- Insert one issue into the tree at its field path. Modelled from the
spec: z.treeifyError nests each violated path under a properties map. -/
def insertIssue : List String → String → Json → Json
  | [], msg, tree => addErr tree msg
  | k :: rest, msg, tree =>
      let props := (objLookup tree "properties").getD (Json.obj [])
      let sub := (objLookup props k).getD emptyNode
      objSet tree "properties" (objSet props k (insertIssue rest msg sub))

/-- Modelled from the spec: z.treeifyError, the tree-shaped rendering of
every violated field path with its reasons (the zod engine itself is an
external collaborator, not part of src/). -/
def treeifyError (issues : List ZodIssue) : Json :=
  issues.foldl (fun t i => insertIssue i.path i.message t) emptyNode

/-- Modelled from the spec: the leaf validators issue-schema.ts draws from
the validation capability. URL and ISO-datetime refinements are modelled as
string-type checks; no claim depends on the finer format. -/
inductive Leaf where
  | str | num | nonnegNum | url | boolean | nullableStr | isoDatetime
  | enumOf : List String → Leaf

def typeName : Json → String
  | Json.null => "null"
  | Json.undef => "undefined"
  | Json.bool _ => "boolean"
  | Json.num _ => "number"
  | Json.str _ => "string"
  | Json.arr _ => "array"
  | Json.obj _ => "object"

def leafExpected : Leaf → String
  | Leaf.str => "string"
  | Leaf.num => "number"
  | Leaf.nonnegNum => "number"
  | Leaf.url => "string"
  | Leaf.boolean => "boolean"
  | Leaf.nullableStr => "string"
  | Leaf.isoDatetime => "string"
  | Leaf.enumOf _ => "option"

/-- Modelled from the spec: how one leaf validator judges a present value. -/
def checkLeaf : Leaf → Json → List String
  | Leaf.str, Json.str _ => []
  | Leaf.str, v => ["Invalid input: expected string, received " ++ typeName v]
  | Leaf.num, Json.num _ => []
  | Leaf.num, v => ["Invalid input: expected number, received " ++ typeName v]
  | Leaf.nonnegNum, Json.num i =>
      if 0 ≤ i then [] else ["Too small: expected number to be nonnegative"]
  | Leaf.nonnegNum, v => ["Invalid input: expected number, received " ++ typeName v]
  | Leaf.url, Json.str _ => []
  | Leaf.url, v => ["Invalid input: expected string, received " ++ typeName v]
  | Leaf.boolean, Json.bool _ => []
  | Leaf.boolean, v => ["Invalid input: expected boolean, received " ++ typeName v]
  | Leaf.nullableStr, Json.null => []
  | Leaf.nullableStr, Json.str _ => []
  | Leaf.nullableStr, v => ["Invalid input: expected string, received " ++ typeName v]
  | Leaf.isoDatetime, Json.str _ => []
  | Leaf.isoDatetime, v => ["Invalid input: expected string, received " ++ typeName v]
  | Leaf.enumOf vals, Json.str s =>
      if vals.contains s then [] else ["Invalid option: received " ++ s]
  | Leaf.enumOf _, v => ["Invalid option: received " ++ typeName v]

/-- A field of an object contract: either a leaf validator or a nested
object of leaves (issue-schema.ts nests exactly one level, the user
object). -/
inductive FieldCheck where
  | leaf : Leaf → FieldCheck
  | objectOf : List (String × Leaf) → FieldCheck

def fieldExpected : FieldCheck → String
  | FieldCheck.leaf l => leafExpected l
  | FieldCheck.objectOf _ => "object"

/-- Modelled from the spec: checking one declared field of an object
contract, producing issues with full field paths; a missing required key is
an issue at that key path. -/
def checkField (k : String) (fc : FieldCheck) (parent : Json) : List ZodIssue :=
  match objLookup parent k with
  | none =>
      [⟨[k], "Invalid input: expected " ++ fieldExpected fc ++ ", received undefined"⟩]
  | some v =>
      match fc with
      | FieldCheck.leaf l => (checkLeaf l v).map (fun m => ⟨[k], m⟩)
      | FieldCheck.objectOf fields =>
          match v with
          | Json.obj _ =>
              fields.foldr
                (fun kl acc =>
                  (match objLookup v kl.1 with
                   | none =>
                       [(⟨[k, kl.1],
                          "Invalid input: expected " ++ leafExpected kl.2
                            ++ ", received undefined"⟩ : ZodIssue)]
                   | some sv => (checkLeaf kl.2 sv).map (fun m => ⟨[k, kl.1], m⟩))
                  ++ acc)
                []
          | _ => [⟨[k], "Invalid input: expected object, received " ++ typeName v⟩]

/-- Modelled from the spec: an object contract checks each declared field of
an object value; a non-object value is one issue at the root path. -/
def checkObjectSchema (fields : List (String × FieldCheck)) (v : Json) : List ZodIssue :=
  match v with
  | Json.obj _ => fields.foldr (fun kf acc => checkField kf.1 kf.2 v ++ acc) []
  | _ => [⟨[], "Invalid input: expected object, received " ++ typeName v⟩]

/-- A contract: a total checker from values to violation lists. Modelled
from the spec: safeParse never raises, failures come back as data. -/
structure ZodSchema where
  check : Json → List ZodIssue

/-- The safeParse result shape of the validation capability. -/
structure SafeParseResult where
  success : Bool
  error : Option (List ZodIssue)

def ZodSchema.safeParse (s : ZodSchema) (v : Json) : SafeParseResult :=
  let issues := s.check v
  if issues.isEmpty then ⟨true, none⟩ else ⟨false, some issues⟩

/-- The field list of IssueSchema from issue-schema.ts, with the nested
UserSchema inlined at the user key. -/
def issueSchemaFields : List (String × FieldCheck) :=
  [ ("url", FieldCheck.leaf Leaf.url)
  , ("id", FieldCheck.leaf Leaf.num)
  , ("node_id", FieldCheck.leaf Leaf.str)
  , ("number", FieldCheck.leaf Leaf.num)
  , ("title", FieldCheck.leaf Leaf.str)
  , ("user", FieldCheck.objectOf
      [ ("login", Leaf.str), ("id", Leaf.num)
      , ("avatar_url", Leaf.url), ("url", Leaf.url) ])
  , ("state", FieldCheck.leaf (Leaf.enumOf ["open", "closed"]))
  , ("locked", FieldCheck.leaf Leaf.boolean)
  , ("comments", FieldCheck.leaf Leaf.nonnegNum)
  , ("created_at", FieldCheck.leaf Leaf.isoDatetime)
  , ("updated_at", FieldCheck.leaf Leaf.isoDatetime)
  , ("body", FieldCheck.leaf Leaf.nullableStr) ]

/-- The IssueSchema contract. -/
def IssueSchema : ZodSchema := ⟨checkObjectSchema issueSchemaFields⟩

/-- The matcher result returned to the test runner: the message thunk is
modelled by its value. -/
structure MatcherResult where
  message : String
  pass : Bool

/-- toMatchSchema from expectSchema.ts: safeParse the value; on success a
fixed placeholder message with pass true, on failure the treeified error
serialized under a fixed prefix with pass false. Total by construction:
validation never throws. -/
def toMatchSchema (received : Json) (schema : ZodSchema) : MatcherResult :=
  let result := schema.safeParse received
  if result.success then
    ⟨"expected value not to match schema", true⟩
  else
    ⟨"Schema validation failed:\n" ++ Json.render (treeifyError (result.error.getD [])), false⟩

/-- Whether a treeified error mentions a field path at the top level. -/
def treeMentions (tree : Json) (k : String) : Bool :=
  match objLookup tree "properties" with
  | some props => (objLookup props k).isSome
  | none => false

/-- A success response carrying a JSON body with the given issue number. -/
def okIssueResponse (n : Int) : Response :=
  ⟨201, "Created", [], Except.ok (Json.obj [("number", Json.num n)]), ""⟩

/-- A transport that always succeeds with a 201 issue response. -/
def alwaysOkTransport : Transport := ⟨fun _ _ _ => Except.ok (okIssueResponse 7)⟩

/-- A 404 failure response. -/
def notFoundResponse : Response :=
  ⟨404, "Not Found", [], Except.error "Unexpected token N", "Not Found"⟩

/-- A transport that always fails with status 404. -/
def alwaysNotFoundTransport : Transport := ⟨fun _ _ _ => Except.ok notFoundResponse⟩

/-- A success response whose body is not decodable JSON. -/
def badJsonResponse : Response :=
  ⟨201, "Created", [], Except.error "Unexpected end of JSON input", "<html>"⟩

/-- A transport whose responses report success but carry a non-JSON body. -/
def badJsonTransport : Transport := ⟨fun _ _ _ => Except.ok badJsonResponse⟩

/-- A sample creation payload. -/
def payload0 : Json := Json.obj [("title", Json.str "T")]

/-- Tracked records used in concrete scenarios. -/
def recA : TrackedRecord := ⟨"o", "r", Json.num 1⟩

def recB : TrackedRecord := ⟨"o", "r", Json.num 2⟩

/-- A transport that faults on the close call for issue 2 and succeeds on
everything else. -/
def faultyCloseTransport : Transport :=
  ⟨fun _ p _ =>
    if p = "/repos/o/r/issues/2" then Except.error "ECONNRESET"
    else Except.ok (okIssueResponse 7)⟩

/-- C7: endpoint construction is a pure, deterministic function of its
arguments; the item endpoint is the slash-joined owner, repo and number
under the repos prefix, the collection endpoint omits the number, and in
particular buildIssueEndpoint at o, r, 42 is /repos/o/r/issues/42. -/
theorem buildIssueEndpoint_spec :
    (∀ (o r : String) (n : Int),
      buildIssueEndpoint o r (Json.num n)
        = "/repos/" ++ o ++ "/" ++ r ++ "/issues/" ++ toString n) ∧
    (∀ (o r : String), buildIssuesEndpoint o r = "/repos/" ++ o ++ "/" ++ r ++ "/issues") ∧
    buildIssueEndpoint "o" "r" (Json.num 42) = "/repos/o/r/issues/42" := by
  refine ⟨?_, fun o r => rfl, rfl⟩
  intro o r n
  show buildIssuesEndpoint o r ++ "/" ++ jsToString (Json.num n) = _
  rw [show jsToString (Json.num n) = toString n from rfl]
  simp only [buildIssuesEndpoint, String.append_assoc]
  congr 4

/-- C9: every payload produced by the data factory has a non-empty title
(the title always embeds a space between the random sentence and the date
string), labels equal to bug and improvement, body set to the generated
paragraphs, and no assignees or milestone, regardless of the random source
and current time. -/
theorem createIssueInfo_shape (sentence paragraphs dateString : String) :
    (createIssueInfo sentence paragraphs dateString).title ≠ "" ∧
    (createIssueInfo sentence paragraphs dateString).labels = some ["bug", "improvement"] ∧
    (createIssueInfo sentence paragraphs dateString).body = some paragraphs ∧
    (createIssueInfo sentence paragraphs dateString).assignees = none ∧
    (createIssueInfo sentence paragraphs dateString).milestone = none := by
  refine ⟨?_, rfl, rfl, rfl, rfl⟩
  intro h
  have hlen := congrArg String.length h
  simp only [createIssueInfo] at hlen
  rw [String.length_append, String.length_append] at hlen
  rw [show (" " : String).length = 1 from rfl, show ("" : String).length = 0 from rfl] at hlen
  omega

/-- C1: whenever the fixture-wrapped createIssue returns a response, a
status in the range 200 to 299 means exactly one Tracked Resource Record,
carrying the call arguments owner and repo and the number field of the
decoded response body, was appended to the test-scoped tracked sequence; a
status outside that range leaves the sequence unchanged. -/
theorem createIssue_tracks_only_success
    (t : Transport) (owner repo : String) (payload : Json)
    (tracked : List TrackedRecord) (r : Response)
    (h : (wrappedCreateIssue t owner repo payload tracked).2.2 = Except.ok r) :
    (200 ≤ r.status ∧ r.status < 300 →
      ∃ body n, r.jsonBody = Except.ok body ∧ Json.get body "number" = Except.ok n ∧
        (wrappedCreateIssue t owner repo payload tracked).2.1
          = tracked ++ [⟨owner, repo, n⟩]) ∧
    (¬(200 ≤ r.status ∧ r.status < 300) →
      (wrappedCreateIssue t owner repo payload tracked).2.1 = tracked) := by
  rcases hc : (createIssue t owner repo payload).2 with f | r0
  · simp [wrappedCreateIssue, hc] at h
  · cases hok : r0.ok
    · simp [wrappedCreateIssue, hc, hok] at h
      subst h
      refine ⟨fun hs => ?_, fun _ => by simp [wrappedCreateIssue, hc, hok]⟩
      have := (Response.ok_iff r0).mpr hs
      rw [hok] at this
      exact absurd this (by simp)
    · rcases hb : r0.jsonBody with e | body
      · simp [wrappedCreateIssue, hc, hok, hb] at h
      · rcases hn : Json.get body "number" with e | n
        · simp [wrappedCreateIssue, hc, hok, hb, hn] at h
        · simp [wrappedCreateIssue, hc, hok, hb, hn] at h
          subst h
          refine ⟨fun _ => ⟨body, n, hb, hn, ?_⟩, fun hns => ?_⟩
          · simp [wrappedCreateIssue, hc, hok, hb, hn]
          · exact absurd ((Response.ok_iff r0).mp hok) hns

/-- C1 witness: with a transport that answers 201 and a body with number 7,
the wrapped call returns that response and appends exactly one record. -/
theorem createIssue_tracks_only_success_witness :
    (wrappedCreateIssue alwaysOkTransport "o" "r" payload0 []).2.2
      = Except.ok (okIssueResponse 7) ∧
    (200 ≤ (okIssueResponse 7).status ∧ (okIssueResponse 7).status < 300 →
      ∃ body n, (okIssueResponse 7).jsonBody = Except.ok body ∧
        Json.get body "number" = Except.ok n ∧
        (wrappedCreateIssue alwaysOkTransport "o" "r" payload0 []).2.1
          = [] ++ [⟨"o", "r", n⟩]) :=
  ⟨rfl, (createIssue_tracks_only_success alwaysOkTransport "o" "r" payload0 []
    (okIssueResponse 7) rfl).1⟩

/-- C4: the fixture wrapper is observationally transparent around the
underlying call: it emits exactly the events of the original createIssue,
whenever it returns a response that response is exactly the one the
original call produced, and the bookkeeping it performs is a function of
the original call result (so the underlying call happens before any
tracking bookkeeping). -/
theorem wrapper_returns_original_response
    (t : Transport) (owner repo : String) (payload : Json) (tracked : List TrackedRecord) :
    (wrappedCreateIssue t owner repo payload tracked).1 = (createIssue t owner repo payload).1 ∧
    (wrappedCreateIssue t owner repo payload tracked).2.1
      = trackAfter (createIssue t owner repo payload).2 owner repo tracked ∧
    (∀ r, (wrappedCreateIssue t owner repo payload tracked).2.2 = Except.ok r →
      (createIssue t owner repo payload).2 = Except.ok r) := by
  rcases hc : (createIssue t owner repo payload).2 with f | r0
  · simp [wrappedCreateIssue, trackAfter, hc]
  · cases hok : r0.ok
    · simp [wrappedCreateIssue, trackAfter, hc, hok]
    · rcases hb : r0.jsonBody with e | body
      · simp [wrappedCreateIssue, trackAfter, hc, hok, hb]
      · rcases hn : Json.get body "number" with e | n
        · simp [wrappedCreateIssue, trackAfter, hc, hok, hb, hn]
        · simp [wrappedCreateIssue, trackAfter, hc, hok, hb, hn]

/-- C4 witness: at a concrete transport the wrapped call returns a response
and the original call produced that same response. -/
theorem wrapper_returns_original_response_witness :
    (wrappedCreateIssue alwaysOkTransport "o" "r" payload0 []).2.2
      = Except.ok (okIssueResponse 7) ∧
    (createIssue alwaysOkTransport "o" "r" payload0).2 = Except.ok (okIssueResponse 7) :=
  ⟨rfl, (wrapper_returns_original_response alwaysOkTransport "o" "r" payload0 []).2.2
    (okIssueResponse 7) rfl⟩

/-- C10: when the underlying createIssue returns a success response whose
body cannot be decoded as JSON, the wrapped createIssue propagates the
decode fault instead of returning, and no Tracked Resource Record is
appended. -/
theorem wrapper_faults_on_bad_json
    (t : Transport) (owner repo : String) (payload : Json) (tracked : List TrackedRecord)
    (r : Response) (e : String)
    (h1 : (createIssue t owner repo payload).2 = Except.ok r)
    (h2 : 200 ≤ r.status ∧ r.status < 300)
    (h3 : r.jsonBody = Except.error e) :
    (wrappedCreateIssue t owner repo payload tracked).2.2
      = Except.error (Fault.jsonDecode e) ∧
    (wrappedCreateIssue t owner repo payload tracked).2.1 = tracked := by
  have hok : r.ok = true := (Response.ok_iff r).mpr h2
  simp [wrappedCreateIssue, h1, hok, h3]

/-- C10 witness: a transport answering 201 with a non-JSON body makes the
wrapped call fault and track nothing. -/
theorem wrapper_faults_on_bad_json_witness :
    (createIssue badJsonTransport "o" "r" payload0).2 = Except.ok badJsonResponse ∧
    (200 ≤ badJsonResponse.status ∧ badJsonResponse.status < 300) ∧
    badJsonResponse.jsonBody = Except.error "Unexpected end of JSON input" ∧
    (wrappedCreateIssue badJsonTransport "o" "r" payload0 []).2.2
      = Except.error (Fault.jsonDecode "Unexpected end of JSON input") ∧
    (wrappedCreateIssue badJsonTransport "o" "r" payload0 []).2.1 = [] := by
  have h := wrapper_faults_on_bad_json badJsonTransport "o" "r" payload0 []
    badJsonResponse "Unexpected end of JSON input" rfl (by decide) rfl
  exact ⟨rfl, by decide, rfl, h.1, h.2⟩

theorem closeCallOf_log (l : LogLevel) (s : String) : closeCallOf (Event.log l s) = none := rfl

theorem closeCallOf_console (s : String) : closeCallOf (Event.console s) = none := rfl

theorem closeCalls_logRequest (m p : String) (d : Option Json) (r : Response) :
    closeCalls (logRequest m p d r) = [] := by
  unfold logRequest closeCalls
  cases d <;>
    simp only [List.filterMap_append, List.filterMap_cons, List.filterMap_nil,
      closeCallOf_log] <;>
    split <;>
    simp [closeCallOf_log]

theorem closeCalls_closeIssue (t : Transport) (owner repo : String) (n : Json) :
    closeCalls (closeIssue t owner repo n).1 = [buildIssueEndpoint owner repo n] := by
  show closeCalls (sendPostRequest t (buildIssueEndpoint owner repo n) closePayload).1 = _
  unfold sendPostRequest
  rcases h : t.respond "POST" (buildIssueEndpoint owner repo n) (some closePayload) with m | r
  · simp only [h]
    rfl
  · simp only [h]
    have hlr := closeCalls_logRequest "POST" (buildIssueEndpoint owner repo n)
      (some closePayload) r
    rw [closeCalls] at hlr
    rw [closeCalls, List.filterMap_cons, hlr,
      show closeCallOf (Event.transportCall "POST" (buildIssueEndpoint owner repo n)
        (some closePayload)) = some (buildIssueEndpoint owner repo n) from rfl]

theorem teardownLoop_calls_of_ok (t : Transport) :
    ∀ l : List TrackedRecord, (teardownLoop t l).2 = none →
      closeCalls (teardownLoop t l).1 = l.map trackedEndpoint := by
  intro l
  induction l with
  | nil => intro _; rfl
  | cons rec rest ih =>
      intro h
      rcases hc : (closeIssue t rec.owner rec.repo rec.number).2 with f | r
      · simp [teardownLoop, hc] at h
      · simp only [teardownLoop, hc] at h ⊢
        have hrest := ih h
        simp only [closeCalls, List.filterMap_cons, closeCallOf_console,
          List.filterMap_append]
        show closeCalls (closeIssue t rec.owner rec.repo rec.number).1
            ++ closeCalls (teardownLoop t rest).1 = _
        rw [closeCalls_closeIssue, hrest]
        rfl

theorem teardownLoop_ok_of_never_faults (t : Transport)
    (hnf : ∀ m p d, ∃ r, t.respond m p d = Except.ok r) :
    ∀ l : List TrackedRecord, (teardownLoop t l).2 = none := by
  intro l
  induction l with
  | nil => rfl
  | cons rec rest ih =>
      obtain ⟨r, hr⟩ := hnf "POST" (trackedEndpoint rec) (some closePayload)
      have hc : (closeIssue t rec.owner rec.repo rec.number).2 = Except.ok r := by
        show (sendPostRequest t (buildIssueEndpoint rec.owner rec.repo rec.number)
          closePayload).2 = _
        unfold sendPostRequest
        rw [show t.respond "POST" (buildIssueEndpoint rec.owner rec.repo rec.number)
          (some closePayload) = Except.ok r from hr]
      simp [teardownLoop, hc, ih]

/-- C2: when teardown completes without a fault it issues exactly one close
call per tracked record, none skipped and none repeated, and the close-call
paths occur in strict reverse insertion order of the tracked sequence. -/
theorem teardown_reverse_order (t : Transport) (tracked : List TrackedRecord)
    (h : (teardown t tracked).2.2 = none) :
    closeCalls (teardown t tracked).1 = tracked.reverse.map trackedEndpoint := by
  have hl := teardownLoop_calls_of_ok t tracked.reverse (by simpa [teardown] using h)
  simpa [teardown] using hl

/-- C2 witness: with records inserted in order A then B and a transport
that always succeeds, teardown closes B first and then A. -/
theorem teardown_reverse_order_witness :
    (teardown alwaysOkTransport [recA, recB]).2.2 = none ∧
    closeCalls (teardown alwaysOkTransport [recA, recB]).1
      = ["/repos/o/r/issues/2", "/repos/o/r/issues/1"] := by
  have h := teardown_reverse_order alwaysOkTransport [recA, recB] rfl
  exact ⟨rfl, h.trans (by rfl)⟩

/-- C3: the teardown loop does not guard against a throwing close call, so
the code diverges at this failing input from the specified behavior that
each cleanup is attempted independently. With records A then B tracked and
a transport fault on the close call for B (which is processed first),
teardown aborts with the fault: the close call for the remaining record A
is never issued. This evaluates the code at the failing input. -/
theorem teardown_fault_short_circuits :
    (teardown faultyCloseTransport [recA, recB]).2.2
      = some (Fault.transport "ECONNRESET") ∧
    closeCalls (teardown faultyCloseTransport [recA, recB]).1 = ["/repos/o/r/issues/2"] ∧
    trackedEndpoint recA = "/repos/o/r/issues/1" ∧
    ¬ ("/repos/o/r/issues/1" ∈ closeCalls (teardown faultyCloseTransport [recA, recB]).1) := by
  refine ⟨rfl, rfl, rfl, fun hmem => ?_⟩
  rw [show closeCalls (teardown faultyCloseTransport [recA, recB]).1
    = ["/repos/o/r/issues/2"] from rfl] at hmem
  simp at hmem

/-- The non-fault half of teardown cleanup independence, for context to the
C3 divergence: a close call that merely returns a failure status does not
short-circuit the remaining cleanups. Whenever the transport never faults,
every tracked record gets exactly one close call, in reverse insertion
order, whatever the response statuses are. -/
theorem teardown_attempts_all_without_faults (t : Transport) (tracked : List TrackedRecord)
    (hnf : ∀ m p d, ∃ r, t.respond m p d = Except.ok r) :
    (teardown t tracked).2.2 = none ∧
    closeCalls (teardown t tracked).1 = tracked.reverse.map trackedEndpoint := by
  have h2 : (teardown t tracked).2.2 = none := by
    simpa [teardown] using teardownLoop_ok_of_never_faults t hnf tracked.reverse
  refine ⟨h2, ?_⟩
  have hl := teardownLoop_calls_of_ok t tracked.reverse (by simpa [teardown] using h2)
  simpa [teardown] using hl

/-- Concrete instance of the non-fault half: with a transport that always
answers 404 (failure status, no fault), teardown still issues both close
calls in reverse order. -/
theorem teardown_attempts_all_without_faults_witness :
    (teardown alwaysNotFoundTransport [recA, recB]).2.2 = none ∧
    closeCalls (teardown alwaysNotFoundTransport [recA, recB]).1
      = ["/repos/o/r/issues/2", "/repos/o/r/issues/1"] := by
  have h := teardown_attempts_all_without_faults alwaysNotFoundTransport [recA, recB]
    (fun _ _ _ => ⟨notFoundResponse, rfl⟩)
  exact ⟨h.1, h.2.trans (by rfl)⟩

/-- C5 counterexample: the tracked sequence is not cleared by teardown. The
source reverses createdIssueNumbers in place and iterates it, but never
empties it: after a completed teardown of one record the array still holds
that record, contradicting the claim that the sequence is empty
afterwards. -/
theorem tracked_sequence_not_cleared :
    (teardown alwaysOkTransport [recA]).2.2 = none ∧
    (teardown alwaysOkTransport [recA]).2.1 = [recA] ∧
    [recA] ≠ ([] : List TrackedRecord) :=
  ⟨rfl, rfl, by simp⟩

/-- C5 amended: the tracked sequence is consumed exactly once during a
fault-free teardown: each record is processed exactly once (one close call
per record, as many close calls as records) and none a second time; the
sequence variable is not cleared, it retains the records in reversed
order, and it is fixture-scoped so it is discarded when the fixture
completes. -/
theorem teardown_consumes_once (t : Transport) (tracked : List TrackedRecord) :
    (teardown t tracked).2.1 = tracked.reverse ∧
    ((teardown t tracked).2.2 = none →
      closeCalls (teardown t tracked).1 = tracked.reverse.map trackedEndpoint ∧
      (closeCalls (teardown t tracked).1).length = tracked.length) := by
  refine ⟨rfl, fun h => ?_⟩
  have hl := teardownLoop_calls_of_ok t tracked.reverse (by simpa [teardown] using h)
  have hc : closeCalls (teardown t tracked).1 = tracked.reverse.map trackedEndpoint := by
    simpa [teardown] using hl
  exact ⟨hc, by rw [hc]; simp⟩

/-- C5 amended witness: two records are each closed exactly once and the
array ends up holding both records, reversed. -/
theorem teardown_consumes_once_witness :
    (teardown alwaysOkTransport [recA, recB]).2.1 = [recB, recA] ∧
    (closeCalls (teardown alwaysOkTransport [recA, recB]).1).length = 2 := by
  have h := teardown_consumes_once alwaysOkTransport [recA, recB]
  exact ⟨(h.1).trans (by rfl), (h.2 rfl).2⟩

/-- The events of a trace before the first transport invocation. -/
def eventsBeforeTransport (ev : List Event) : List Event :=
  ev.takeWhile (fun e => match e with
    | Event.transportCall _ _ _ => false
    | _ => true)

/-- C6 counterexample: the client wrapper logs nothing before invoking the
transport. For a concrete POST the emitted trace is non-empty, starts with
the transport invocation, and in particular the method-and-path info line
does not appear before the transport call, contradicting the claim that
method and path are logged at info level both before and after invoking
the transport. -/
theorem no_log_before_transport :
    eventsBeforeTransport (sendPostRequest alwaysOkTransport "/x" payload0).1 = [] ∧
    (sendPostRequest alwaysOkTransport "/x" payload0).1 ≠ [] ∧
    ¬ (Event.log LogLevel.info (requestLine "POST" "/x")
        ∈ eventsBeforeTransport (sendPostRequest alwaysOkTransport "/x" payload0).1) := by
  refine ⟨rfl, fun h => ?_, fun hmem => ?_⟩
  · have h4 : (sendPostRequest alwaysOkTransport "/x" payload0).1.length = 4 := rfl
    rw [h] at h4
    simp at h4
  · rw [show eventsBeforeTransport (sendPostRequest alwaysOkTransport "/x" payload0).1
      = [] from rfl] at hmem
    simp at hmem

/-- The logging contract one wrapper call satisfies when the transport
resolves: the transport invocation is the first event, it is immediately
followed by the method-and-path info line, the status info line occurs in
the trace, and a truthy payload is logged at debug in serialized form. -/
def requestLogged (ev : List Event) (m p : String) (d : Option Json) (r : Response) : Prop :=
  ev.head? = some (Event.transportCall m p d) ∧
  ev[1]? = some (Event.log LogLevel.info (requestLine m p)) ∧
  Event.log LogLevel.info (statusLine r) ∈ ev ∧
  (∀ j, d = some j → jsTruthy j = true → Event.log LogLevel.debug (payloadLine j) ∈ ev)

theorem requestLogged_of_ok (m p : String) (d : Option Json) (r : Response) :
    requestLogged (Event.transportCall m p d :: logRequest m p d r) m p d r := by
  refine ⟨rfl, ?_, ?_, ?_⟩
  · simp [logRequest]
  · simp [logRequest]
  · intro j hj htr
    subst hj
    simp [logRequest, htr]

/-- C6 amended: every HTTP client wrapper operation logs the method and
path at info level once, immediately after invoking the transport (not
before), followed by the response status at info level; a truthy request
payload is additionally logged at debug level in serialized form. -/
theorem logging_after_transport (t : Transport) :
    (∀ path params r, t.respond "GET" path params = Except.ok r →
      requestLogged (sendGetRequest t path params).1 "GET" path params r) ∧
    (∀ path data r, t.respond "POST" path (some data) = Except.ok r →
      requestLogged (sendPostRequest t path data).1 "POST" path (some data) r) ∧
    (∀ path data r, t.respond "PUT" path (some data) = Except.ok r →
      requestLogged (sendPutRequest t path data).1 "PUT" path (some data) r) ∧
    (∀ path data r, t.respond "PATCH" path (some data) = Except.ok r →
      requestLogged (sendPatchRequest t path data).1 "PATCH" path (some data) r) ∧
    (∀ path r, t.respond "DELETE" path none = Except.ok r →
      requestLogged (sendDeleteRequest t path).1 "DELETE" path none r) := by
  refine ⟨?_, ?_, ?_, ?_, ?_⟩
  · intro path params r h
    unfold sendGetRequest
    simp only [h]
    exact requestLogged_of_ok "GET" path params r
  · intro path data r h
    unfold sendPostRequest
    simp only [h]
    exact requestLogged_of_ok "POST" path (some data) r
  · intro path data r h
    unfold sendPutRequest
    simp only [h]
    exact requestLogged_of_ok "PUT" path (some data) r
  · intro path data r h
    unfold sendPatchRequest
    simp only [h]
    exact requestLogged_of_ok "PATCH" path (some data) r
  · intro path r h
    unfold sendDeleteRequest
    simp only [h]
    exact requestLogged_of_ok "DELETE" path none r

/-- C6 amended witness: a concrete POST satisfies the logging contract. -/
theorem logging_after_transport_witness :
    requestLogged (sendPostRequest alwaysOkTransport "/x" payload0).1 "POST" "/x"
      (some payload0) (okIssueResponse 7) :=
  (logging_after_transport alwaysOkTransport).2.1 "/x" payload0 (okIssueResponse 7) rfl

/-- A value conforming to the issue contract. -/
def conformingUser : Json := Json.obj
  [ ("login", Json.str "octocat"), ("id", Json.num 1)
  , ("avatar_url", Json.str "https://example.com/a.png")
  , ("url", Json.str "https://example.com/u") ]

def conformingIssue : Json := Json.obj
  [ ("url", Json.str "https://api.github.com/repos/o/r/issues/1")
  , ("id", Json.num 101)
  , ("node_id", Json.str "N1")
  , ("number", Json.num 1)
  , ("title", Json.str "T")
  , ("user", conformingUser)
  , ("state", Json.str "open")
  , ("locked", Json.bool false)
  , ("comments", Json.num 0)
  , ("created_at", Json.str "2026-01-01T00:00:00Z")
  , ("updated_at", Json.str "2026-01-01T00:00:00Z")
  , ("body", Json.null) ]

/-- The same value with the required id field removed. -/
def missingIdIssue : Json := Json.obj
  [ ("url", Json.str "https://api.github.com/repos/o/r/issues/1")
  , ("node_id", Json.str "N1")
  , ("number", Json.num 1)
  , ("title", Json.str "T")
  , ("user", conformingUser)
  , ("state", Json.str "open")
  , ("locked", Json.bool false)
  , ("comments", Json.num 0)
  , ("created_at", Json.str "2026-01-01T00:00:00Z")
  , ("updated_at", Json.str "2026-01-01T00:00:00Z")
  , ("body", Json.null) ]

def startsWith : List Char → List Char → Bool
  | [], _ => true
  | _ :: _, [] => false
  | a :: as, b :: bs => a = b && startsWith as bs

/-- Whether the character sequence of a string contains a given substring,
used to state that a diagnostic mentions a quoted field name. -/
def containsSub : List Char → List Char → Bool
  | [], needle => needle.isEmpty
  | h :: t, needle => startsWith needle (h :: t) || containsSub t needle

/-- C8: the schema validator never throws (it is a total function of the
value and the contract, its pass flag simply mirrors safeParse success): a
conforming value yields pass true with the fixed placeholder message, and
a value missing the required id field yields pass false with a diagnostic
equal to the serialized treeified error, which has an entry at the field
path id and whose text mentions the quoted name id. -/
theorem toMatchSchema_spec :
    (∀ (v : Json) (s : ZodSchema),
      (toMatchSchema v s).pass = (ZodSchema.safeParse s v).success) ∧
    (∀ (v : Json) (s : ZodSchema), (ZodSchema.safeParse s v).success = true →
      toMatchSchema v s = ⟨"expected value not to match schema", true⟩) ∧
    (toMatchSchema conformingIssue IssueSchema).pass = true ∧
    (toMatchSchema missingIdIssue IssueSchema).pass = false ∧
    treeMentions (treeifyError ((IssueSchema.safeParse missingIdIssue).error.getD [])) "id"
      = true ∧
    (toMatchSchema missingIdIssue IssueSchema).message
      = "Schema validation failed:\n"
        ++ Json.render (treeifyError ((IssueSchema.safeParse missingIdIssue).error.getD [])) ∧
    containsSub (toMatchSchema missingIdIssue IssueSchema).message.data "\"id\"".data
      = true := by
  refine ⟨?_, ?_, rfl, rfl, rfl, rfl, rfl⟩
  · intro v s
    unfold toMatchSchema
    cases h : (ZodSchema.safeParse s v).success <;> simp [h]
  · intro v s h
    unfold toMatchSchema
    simp [h]

/-- C8 witness: the conforming value satisfies safeParse and the matcher
returns the fixed placeholder with pass true. -/
theorem toMatchSchema_spec_witness :
    (ZodSchema.safeParse IssueSchema conformingIssue).success = true ∧
    toMatchSchema conformingIssue IssueSchema
      = ⟨"expected value not to match schema", true⟩ :=
  ⟨rfl, toMatchSchema_spec.2.1 conformingIssue IssueSchema rfl⟩
